import Mathlib

/-!
Verification of the YouTube video summarizer pipeline (`app.py`).

The program is embedded shallowly over `List Char` (Python strings are
sequences of code points).  The three pure stages are translated directly
from the source:

* `extract_video_id` — tries three regular expressions in order, returning
  the first capture (a leftmost 11-character token over `[0-9A-Za-z_-]`
  occurring after `v=` or `/`, after `embed/`, or after `shorts/`).
* `get_transcript` — joins the segment texts returned by the external
  transcript-retrieval capability with single spaces, or collapses any
  failure to `(none, 0)`.
* `generate_summary` — truncates oversized input to its first 1000
  characters plus `...`, invokes the external summarization capability with
  the two bounds and sampling disabled, and on any failure returns the
  fallback string embedding the failure reason and the first 500 characters
  of the (possibly already truncated) local `text` variable.

External capabilities (transcript retrieval, model pipeline construction
and invocation, title lookup) are modelled as explicit parameters; a raised
Python exception is an `Except.error` value carrying its message.  The UI
flow of `main` is modelled as the list of user-visible events it renders,
in source order.
-/

/-- Character class `[0-9A-Za-z_-]` used by all three patterns in
`extract_video_id`. -/
def isTokenChar (c : Char) : Bool :=
  (('0' ≤ c) && (c ≤ '9')) || (('A' ≤ c) && (c ≤ 'Z')) ||
    (('a' ≤ c) && (c ≤ 'z')) || (c = '_') || (c = '-')

/-- Read exactly `n` characters of the token class from the front of the
input, as the regex fragment `[0-9A-Za-z_-]{n}` does; `none` when a
non-class character is hit or the input runs out. -/
def takeToken : Nat → List Char → Option (List Char)
  | 0, _ => some []
  | _ + 1, [] => none
  | n + 1, c :: cs =>
    if isTokenChar c then (takeToken n cs).map (fun t => c :: t) else none

/-- One attempt of pattern 1, `(?:v=|\/)([0-9A-Za-z_-]{11}).*`, anchored at
the current position: after `v=` or `/`, capture 11 class characters (the
trailing `.*` always succeeds and captures nothing). -/
def tryPat1At : List Char → Option (List Char)
  | [] => none
  | c :: cs =>
    if c = 'v' then
      match cs with
      | [] => none
      | c2 :: cs2 => if c2 = '=' then takeToken 11 cs2 else none
    else if c = '/' then takeToken 11 cs
    else none

/-- One attempt of pattern 2, `(?:embed\/)([0-9A-Za-z_-]{11})`, anchored at
the current position: the next six characters must be `embed/`, then 11
class characters are captured. -/
def tryPat2At (cs : List Char) : Option (List Char) :=
  if cs.take 6 = ("embed/").data then takeToken 11 (cs.drop 6) else none

/-- One attempt of pattern 3, `(?:shorts\/)([0-9A-Za-z_-]{11})`, anchored at
the current position: the next seven characters must be `shorts/`, then 11
class characters are captured. -/
def tryPat3At (cs : List Char) : Option (List Char) :=
  if cs.take 7 = ("shorts/").data then takeToken 11 (cs.drop 7) else none

/-- `re.search`: try the anchored pattern at every position from the left
and return the first capture. -/
def reSearch (f : List Char → Option (List Char)) : List Char → Option (List Char)
  | [] => none
  | c :: cs =>
    match f (c :: cs) with
    | some t => some t
    | none => reSearch f cs

/-- `extract_video_id` from `app.py`, on the character list of the URL:
the three patterns are tried in order, first successful search wins. -/
def extractId (url : List Char) : Option (List Char) :=
  match reSearch tryPat1At url with
  | some t => some t
  | none =>
    match reSearch tryPat2At url with
    | some t => some t
    | none => reSearch tryPat3At url

/-- `extract_video_id` from `app.py` on Python strings: returns the captured
11-character video id, or `None` when no pattern matches. -/
def extract_video_id (url : String) : Option String :=
  (extractId url.data).map (fun t => String.mk t)

/-- Result of running an anchored pattern on a prefix of the input:
a capture, a definite failure (stable under extending the input), or an
inconclusive run out of input. -/
inductive PScan where
  | hit (t : List Char)
  | no
  | more
deriving DecidableEq

/-- Prefix-aware version of `takeToken`. -/
def takeTokenP : Nat → List Char → PScan
  | 0, _ => PScan.hit []
  | _ + 1, [] => PScan.more
  | n + 1, c :: cs =>
    if isTokenChar c then
      match takeTokenP n cs with
      | PScan.hit t => PScan.hit (c :: t)
      | r => r
    else PScan.no

/-- Prefix-aware version of `tryPat1At`. -/
def tryPat1P : List Char → PScan
  | [] => PScan.more
  | c :: cs =>
    if c = 'v' then
      match cs with
      | [] => PScan.more
      | c2 :: cs2 => if c2 = '=' then takeTokenP 11 cs2 else PScan.no
    else if c = '/' then takeTokenP 11 cs
    else PScan.no

theorem takeTokenP_no_sound :
    ∀ (n : Nat) (cs suf : List Char), takeTokenP n cs = PScan.no →
      takeToken n (cs ++ suf) = none := by
  intro n
  induction n with
  | zero => intro cs suf h; simp [takeTokenP] at h
  | succ m ih =>
    intro cs suf h
    cases cs with
    | nil => simp [takeTokenP] at h
    | cons c cs2 =>
      by_cases hc : isTokenChar c
      · simp only [takeTokenP, if_pos hc] at h
        simp only [List.cons_append, takeToken, if_pos hc, List.append_eq]
        cases hr : takeTokenP m cs2 with
        | hit t => rw [hr] at h; simp at h
        | no => rw [ih cs2 suf hr]; rfl
        | more => rw [hr] at h; simp at h
      · simp only [List.cons_append, takeToken, if_neg hc]

theorem tryPat1P_no_sound :
    ∀ (cs suf : List Char), tryPat1P cs = PScan.no → tryPat1At (cs ++ suf) = none := by
  intro cs suf h
  cases cs with
  | nil => simp [tryPat1P] at h
  | cons c cs2 =>
    by_cases hv : c = 'v'
    · subst hv
      cases cs2 with
      | nil => simp [tryPat1P] at h
      | cons c2 cs3 =>
        by_cases he : c2 = '='
        · subst he
          simp only [tryPat1P, if_pos rfl] at h
          simp only [List.cons_append, tryPat1At, if_pos rfl]
          exact takeTokenP_no_sound 11 cs3 suf h
        · simp [tryPat1At, he]
    · by_cases hs : c = '/'
      · subst hs
        simp only [tryPat1P, if_neg hv, if_pos rfl] at h
        simp only [List.cons_append, tryPat1At, if_neg hv, if_pos rfl]
        exact takeTokenP_no_sound 11 cs2 suf h
      · simp only [List.cons_append, tryPat1At, if_neg hv, if_neg hs]

theorem reSearch_cons_none (f : List Char → Option (List Char)) (c : Char)
    (cs : List Char) (h : f (c :: cs) = none) :
    reSearch f (c :: cs) = reSearch f cs := by
  simp [reSearch, h]

theorem reSearch_cons_some (f : List Char → Option (List Char)) (c : Char)
    (cs t : List Char) (h : f (c :: cs) = some t) :
    reSearch f (c :: cs) = some t := by
  simp [reSearch, h]

/-- If a pattern definitely fails at every position inside `pre` (with the
concrete continuation `pad` in view), the search over `pre ++ pad ++ suf`
reduces to the search over `pad ++ suf`, for every `suf`. -/
theorem reSearch_append_no (f : List Char → Option (List Char))
    (P : List Char → PScan)
    (hP : ∀ cs suf, P cs = PScan.no → f (cs ++ suf) = none) :
    ∀ (pre pad suf : List Char),
      (∀ j, j < pre.length → P ((pre ++ pad).drop j) = PScan.no) →
      reSearch f (pre ++ (pad ++ suf)) = reSearch f (pad ++ suf) := by
  intro pre
  induction pre with
  | nil => intro pad suf _; rfl
  | cons p pre2 ih =>
    intro pad suf hall
    have h0 : P (p :: (pre2 ++ pad)) = PScan.no := by
      have := hall 0 (by simp)
      simpa using this
    have hnone : f ((p :: (pre2 ++ pad)) ++ suf) = none := hP _ _ h0
    have hnone2 : f (p :: (pre2 ++ (pad ++ suf))) = none := by
      simpa [List.append_assoc] using hnone
    calc reSearch f ((p :: pre2) ++ (pad ++ suf))
        = reSearch f (pre2 ++ (pad ++ suf)) := by
          exact reSearch_cons_none f p _ hnone2
      _ = reSearch f (pad ++ suf) := by
          refine ih pad suf ?_
          intro j hj
          have := hall (j + 1) (by simpa using Nat.succ_lt_succ hj)
          simpa using this

theorem reSearch_none_of_all (f : List Char → Option (List Char)) :
    ∀ cs : List Char, (∀ j, j < cs.length → f (cs.drop j) = none) →
      reSearch f cs = none := by
  intro cs
  induction cs with
  | nil => intro _; rfl
  | cons c cs2 ih =>
    intro hall
    have h0 : f (c :: cs2) = none := by simpa using hall 0 (by simp)
    rw [reSearch_cons_none f c cs2 h0]
    refine ih ?_
    intro j hj
    have := hall (j + 1) (by simpa using Nat.succ_lt_succ hj)
    simpa using this

theorem reSearch_some_exists (f : List Char → Option (List Char)) :
    ∀ (cs t : List Char), reSearch f cs = some t →
      ∃ j, f (cs.drop j) = some t := by
  intro cs
  induction cs with
  | nil => intro t h; simp [reSearch] at h
  | cons c cs2 ih =>
    intro t h
    simp only [reSearch] at h
    cases hf : f (c :: cs2) with
    | some r =>
      rw [hf] at h
      exact ⟨0, by simpa [hf] using h⟩
    | none =>
      rw [hf] at h
      obtain ⟨j, hj⟩ := ih t h
      exact ⟨j + 1, by simpa using hj⟩

theorem takeToken_self :
    ∀ cs : List Char, cs.all isTokenChar = true → takeToken cs.length cs = some cs := by
  intro cs
  induction cs with
  | nil => intro _; rfl
  | cons c cs2 ih =>
    intro hall
    simp only [List.all_cons, Bool.and_eq_true] at hall
    simp only [List.length_cons, takeToken, if_pos hall.1, ih hall.2]
    rfl

theorem takeToken_sound :
    ∀ (n : Nat) (cs t : List Char), takeToken n cs = some t →
      t.length = n ∧ t.all isTokenChar = true := by
  intro n
  induction n with
  | zero =>
    intro cs t h
    simp only [takeToken, Option.some_inj] at h
    subst h; exact ⟨rfl, rfl⟩
  | succ m ih =>
    intro cs t h
    cases cs with
    | nil => simp [takeToken] at h
    | cons c cs2 =>
      by_cases hc : isTokenChar c
      · simp only [takeToken, if_pos hc] at h
        cases hr : takeToken m cs2 with
        | none => rw [hr] at h; simp at h
        | some r =>
          rw [hr] at h
          have h2 : c :: r = t := by simpa using h
          obtain ⟨hl, ha⟩ := ih cs2 r hr
          subst h2
          refine ⟨by simp [hl], ?_⟩
          simp [List.all_cons, hc, ha]
      · rw [takeToken, if_neg hc] at h
        exact absurd h (by simp)

theorem reSearch_head_some (f : List Char → Option (List Char)) (cs t : List Char)
    (hne : cs ≠ []) (h : f cs = some t) : reSearch f cs = some t := by
  cases cs with
  | nil => exact absurd rfl hne
  | cons c cs2 => exact reSearch_cons_some f c cs2 t h

theorem extractId_of_pat1 (url t : List Char)
    (h : reSearch tryPat1At url = some t) : extractId url = some t := by
  simp [extractId, h]

/-- If pattern 1 definitely fails at every position of the concrete prefix
`pre` (with `pad` in view) and matches at the start of `pad ++ t`, then
`extract_video_id` returns the capture, via its first pattern. -/
theorem extractId_prefix_pat1 (pre pad t : List Char)
    (hall : ∀ j, j < pre.length → tryPat1P ((pre ++ pad).drop j) = PScan.no)
    (hpad : tryPat1At (pad ++ t) = some t) (hne : pad ++ t ≠ []) :
    extractId (pre ++ (pad ++ t)) = some t := by
  have hred := reSearch_append_no tryPat1At tryPat1P tryPat1P_no_sound pre pad t hall
  exact extractId_of_pat1 _ _ (by rw [hred]; exact reSearch_head_some _ _ _ hne hpad)

theorem tryPat1At_veq (t : List Char) (htok : takeToken 11 t = some t) :
    tryPat1At (("v=").data ++ t) = some t := by
  have he : ("v=").data ++ t = 'v' :: '=' :: t := rfl
  rw [he]
  simp [tryPat1At, htok]

theorem tryPat1At_slash (t : List Char) (htok : takeToken 11 t = some t) :
    tryPat1At (("/").data ++ t) = some t := by
  have he : ("/").data ++ t = '/' :: t := rfl
  rw [he]
  simp [tryPat1At, htok]

theorem extract_tmpl_watch (t : List Char) (h1 : t.length = 11)
    (h2 : t.all isTokenChar = true) :
    extractId (("https://www.youtube.com/watch?v=").data ++ t) = some t := by
  have htok : takeToken 11 t = some t := by rw [← h1]; exact takeToken_self t h2
  have hs : ("https://www.youtube.com/watch?v=").data
      = ("https://www.youtube.com/watch?").data ++ ("v=").data := by decide
  rw [hs, List.append_assoc]
  exact extractId_prefix_pat1 _ _ _ (by decide) (tryPat1At_veq t htok) (by simp)

theorem extract_tmpl_youtu (t : List Char) (h1 : t.length = 11)
    (h2 : t.all isTokenChar = true) :
    extractId (("https://youtu.be/").data ++ t) = some t := by
  have htok : takeToken 11 t = some t := by rw [← h1]; exact takeToken_self t h2
  have hs : ("https://youtu.be/").data
      = ("https://youtu.be").data ++ ("/").data := by decide
  rw [hs, List.append_assoc]
  exact extractId_prefix_pat1 _ _ _ (by decide) (tryPat1At_slash t htok) (by simp)

theorem extract_tmpl_embed (t : List Char) (h1 : t.length = 11)
    (h2 : t.all isTokenChar = true) :
    extractId (("https://www.youtube.com/embed/").data ++ t) = some t := by
  have htok : takeToken 11 t = some t := by rw [← h1]; exact takeToken_self t h2
  have hs : ("https://www.youtube.com/embed/").data
      = ("https://www.youtube.com/embed").data ++ ("/").data := by decide
  rw [hs, List.append_assoc]
  exact extractId_prefix_pat1 _ _ _ (by decide) (tryPat1At_slash t htok) (by simp)

theorem extract_tmpl_shorts (t : List Char) (h1 : t.length = 11)
    (h2 : t.all isTokenChar = true) :
    extractId (("https://www.youtube.com/shorts/").data ++ t) = some t := by
  have htok : takeToken 11 t = some t := by rw [← h1]; exact takeToken_self t h2
  have hs : ("https://www.youtube.com/shorts/").data
      = ("https://www.youtube.com/shorts").data ++ ("/").data := by decide
  rw [hs, List.append_assoc]
  exact extractId_prefix_pat1 _ _ _ (by decide) (tryPat1At_slash t htok) (by simp)

/-- C1: for every 11-character token over `[A-Za-z0-9_-]`, each of the
canonical URL shapes (watch query parameter, short link, embedded player,
shorts link) resolves to exactly that token, and in particular the three
concrete example URLs resolve to `dQw4w9WgXcQ`. -/
theorem C1_resolver_canonical (t : List Char) (h1 : t.length = 11)
    (h2 : t.all isTokenChar = true) :
    extractId (("https://www.youtube.com/watch?v=").data ++ t) = some t ∧
    extractId (("https://youtu.be/").data ++ t) = some t ∧
    extractId (("https://www.youtube.com/embed/").data ++ t) = some t ∧
    extractId (("https://www.youtube.com/shorts/").data ++ t) = some t ∧
    extract_video_id ("https://www.youtube.com/watch?v=dQw4w9WgXcQ") = some ("dQw4w9WgXcQ") ∧
    extract_video_id ("https://youtu.be/dQw4w9WgXcQ") = some ("dQw4w9WgXcQ") ∧
    extract_video_id ("https://www.youtube.com/shorts/dQw4w9WgXcQ") = some ("dQw4w9WgXcQ") :=
  ⟨extract_tmpl_watch t h1 h2, extract_tmpl_youtu t h1 h2, extract_tmpl_embed t h1 h2,
    extract_tmpl_shorts t h1 h2, by decide, by decide, by decide⟩

/-- Witness for C1 at the concrete token `dQw4w9WgXcQ`. -/
theorem C1_witness :
    extractId (("https://www.youtube.com/watch?v=").data ++ ("dQw4w9WgXcQ").data)
      = some (("dQw4w9WgXcQ").data) ∧
    extract_video_id ("https://youtu.be/dQw4w9WgXcQ") = some ("dQw4w9WgXcQ") := by
  have h := C1_resolver_canonical (("dQw4w9WgXcQ").data) (by decide) (by decide)
  exact ⟨h.1, h.2.2.2.2.2.1⟩

theorem tryPat1At_sound (cs t : List Char) (h : tryPat1At cs = some t) :
    t.length = 11 ∧ t.all isTokenChar = true := by
  cases cs with
  | nil => simp [tryPat1At] at h
  | cons c cs2 =>
    by_cases hv : c = 'v'
    · subst hv
      cases cs2 with
      | nil => simp [tryPat1At] at h
      | cons c2 cs3 =>
        by_cases he : c2 = '='
        · subst he
          simp only [tryPat1At, if_pos rfl] at h
          exact takeToken_sound 11 cs3 t (by simpa using h)
        · simp [tryPat1At, he] at h
    · by_cases hs : c = '/'
      · subst hs
        simp only [tryPat1At] at h
        exact takeToken_sound 11 cs2 t (by simpa using h)
      · simp [tryPat1At, hv, hs] at h

theorem tryPat2At_sound (cs t : List Char) (h : tryPat2At cs = some t) :
    t.length = 11 ∧ t.all isTokenChar = true := by
  by_cases hp : cs.take 6 = ("embed/").data
  · rw [tryPat2At, if_pos hp] at h
    exact takeToken_sound 11 (cs.drop 6) t h
  · rw [tryPat2At, if_neg hp] at h
    exact absurd h (by simp)

theorem tryPat3At_sound (cs t : List Char) (h : tryPat3At cs = some t) :
    t.length = 11 ∧ t.all isTokenChar = true := by
  by_cases hp : cs.take 7 = ("shorts/").data
  · rw [tryPat3At, if_pos hp] at h
    exact takeToken_sound 11 (cs.drop 7) t h
  · rw [tryPat3At, if_neg hp] at h
    exact absurd h (by simp)

theorem extractId_sound (url t : List Char) (h : extractId url = some t) :
    t.length = 11 ∧ t.all isTokenChar = true := by
  unfold extractId at h
  cases h1 : reSearch tryPat1At url with
  | some r =>
    rw [h1] at h
    have ht : r = t := by simpa using h
    subst ht
    obtain ⟨j, hj⟩ := reSearch_some_exists tryPat1At url r h1
    exact tryPat1At_sound _ _ hj
  | none =>
    rw [h1] at h
    cases h2 : reSearch tryPat2At url with
    | some r =>
      rw [h2] at h
      have ht : r = t := by simpa using h
      subst ht
      obtain ⟨j, hj⟩ := reSearch_some_exists tryPat2At url r h2
      exact tryPat2At_sound _ _ hj
    | none =>
      rw [h2] at h
      obtain ⟨j, hj⟩ := reSearch_some_exists tryPat3At url t h
      exact tryPat3At_sound _ _ hj

/-- A URL with no recognizable token: at no position does any of the three
anchored patterns produce a capture. -/
def noTokenAnywhere (cs : List Char) : Prop :=
  ∀ j, j < cs.length →
    tryPat1At (cs.drop j) = none ∧ tryPat2At (cs.drop j) = none ∧
      tryPat3At (cs.drop j) = none

instance (cs : List Char) : Decidable (noTokenAnywhere cs) := by
  unfold noTokenAnywhere
  infer_instance

/-- C4: the Resolver only ever returns `None` or a well-formed identifier of
exactly 11 characters over `[A-Za-z0-9_-]` (never a partial or garbage
value), and on a URL with no recognizable token it returns `None`. -/
theorem C4_resolver_wellformed :
    (∀ (url t : String), extract_video_id url = some t →
        t.length = 11 ∧ t.data.all isTokenChar = true) ∧
    (∀ url : String, noTokenAnywhere url.data → extract_video_id url = none) := by
  constructor
  · intro url t h
    cases hl : extractId url.data with
    | none => simp [extract_video_id, hl] at h
    | some l =>
      have hm : String.mk l = t := by simpa [extract_video_id, hl] using h
      subst hm
      obtain ⟨hlen, hall⟩ := extractId_sound _ _ hl
      exact ⟨hlen, hall⟩
  · intro url hno
    have h1 : reSearch tryPat1At url.data = none :=
      reSearch_none_of_all _ _ (fun j hj => (hno j hj).1)
    have h2 : reSearch tryPat2At url.data = none :=
      reSearch_none_of_all _ _ (fun j hj => (hno j hj).2.1)
    have h3 : reSearch tryPat3At url.data = none :=
      reSearch_none_of_all _ _ (fun j hj => (hno j hj).2.2)
    simp [extract_video_id, extractId, h1, h2, h3]

/-- Witness for C4: the unrecognized URL of end-to-end scenario 4 resolves
to `None`, and a resolved identifier is a well-formed 11-character token. -/
theorem C4_witness :
    extract_video_id ("https://example.com/video") = none ∧
    ("dQw4w9WgXcQ" : String).length = 11 ∧
    ("dQw4w9WgXcQ" : String).data.all isTokenChar = true := by
  refine ⟨C4_resolver_wellformed.2 ("https://example.com/video") (by decide), ?_⟩
  exact C4_resolver_wellformed.1 ("https://www.youtube.com/watch?v=dQw4w9WgXcQ") _ (by decide)

/-- Default of the `max_length` keyword parameter of `generate_summary`. -/
def default_max_length : Nat := 150

/-- Default of the `min_length` keyword parameter of `generate_summary`. -/
def default_min_length : Nat := 30

/-- Pre-truncation step of `generate_summary`: `if len(text) > 1000:
text = text[:1000] + "..."`. -/
def truncate1000 (text : List Char) : List Char :=
  if text.length > 1000 then text.take 1000 ++ ("...").data else text

/-- Head of the fallback f-string of `generate_summary`. -/
def failHead : List Char := ("Summary generation failed: ").data

/-- Middle piece of the fallback f-string of `generate_summary`. -/
def failMid : List Char := (". Here are the first 500 characters: ").data

/-- Fallback string of the `except` branch of `generate_summary`:
`f"Summary generation failed: {str(e)}. Here are the first 500 characters:
{text[:500]}..."`, where `text` is the current value of the local
variable. -/
def fallback (e text : List Char) : List Char :=
  failHead ++ e ++ failMid ++ text.take 500 ++ ("...").data

/-- `generate_summary` from `app.py`.  `init` models the construction of the
summarization pipeline (which Python performs inside the `try` block before
truncation and can raise); `summ` models the invocation of the summarization
capability together with the extraction `summary[0]["summary_text"]`, taking
the text, `max_length`, `min_length` and `do_sample` and either returning
the summary string or raising.  Any raise is caught by the single `except`
clause, which renders the fallback from the current (possibly truncated)
`text` variable. -/
def generate_summary (init : Except (List Char) Unit)
    (summ : List Char → Nat → Nat → Bool → Except (List Char) (List Char))
    (text : List Char) (max_length min_length : Nat) : List Char :=
  match init with
  | Except.error e => fallback e text
  | Except.ok _ =>
    let truncated := truncate1000 text
    match summ truncated max_length min_length false with
    | Except.ok s => s
    | Except.error e => fallback e truncated

theorem truncate1000_take_500 (text : List Char) :
    (truncate1000 text).take 500 = text.take 500 := by
  unfold truncate1000
  by_cases h : text.length > 1000
  · rw [if_pos h]
    have hlen : 500 ≤ (text.take 1000).length := by
      rw [List.length_take]
      omega
    rw [List.take_append_of_le_length hlen, List.take_take]
    norm_num
  · rw [if_neg h]

/-- On any failure, the summarizer result is exactly the fallback string
built from the failure reason and the first 500 characters of the original
input text; shared by the claims about the fallback and about `main`. -/
theorem generate_summary_error_eq (init : Except (List Char) Unit)
    (summ : List Char → Nat → Nat → Bool → Except (List Char) (List Char))
    (text : List Char) (maxL minL : Nat) (e : List Char)
    (h : init = Except.error e ∨
      (init = Except.ok () ∧ summ (truncate1000 text) maxL minL false = Except.error e)) :
    generate_summary init summ text maxL minL
      = failHead ++ e ++ failMid ++ text.take 500 ++ ("...").data := by
  cases h with
  | inl h1 =>
    subst h1
    rfl
  | inr h2 =>
    obtain ⟨hinit, hsumm⟩ := h2
    subst hinit
    show (match summ (truncate1000 text) maxL minL false with
      | Except.ok s => s
      | Except.error e2 => fallback e2 (truncate1000 text)) = _
    rw [hsumm]
    show fallback e (truncate1000 text) = _
    unfold fallback
    rw [truncate1000_take_500]

/-- C2: whenever the summarization capability fails — during pipeline
construction or during invocation, i.e. also after the input was truncated —
`generate_summary` returns (rather than raising) the fallback string, which
embeds the failure reason and the first 500 characters of the original,
untruncated input text followed by the continuation marker `...`. -/
theorem C2_summarizer_fallback (init : Except (List Char) Unit)
    (summ : List Char → Nat → Nat → Bool → Except (List Char) (List Char))
    (text : List Char) (maxL minL : Nat) (e : List Char)
    (h : init = Except.error e ∨
      (init = Except.ok () ∧ summ (truncate1000 text) maxL minL false = Except.error e)) :
    generate_summary init summ text maxL minL
      = failHead ++ e ++ failMid ++ text.take 500 ++ ("...").data ∧
    failHead <+: generate_summary init summ text maxL minL := by
  have heq := generate_summary_error_eq init summ text maxL minL e h
  constructor
  · exact heq
  · rw [heq]
    simp only [List.append_assoc]
    exact List.prefix_append _ _

/-- Witness for C2: a 2000-character transcript whose summarization throws;
the result embeds the first 500 characters of the original transcript. -/
theorem C2_witness :
    generate_summary (Except.ok ()) (fun _ _ _ _ => Except.error (("boom").data))
        (List.replicate 2000 'a') 150 30
      = failHead ++ ("boom").data ++ failMid ++ (List.replicate 2000 'a').take 500
          ++ ("...").data :=
  (C2_summarizer_fallback (Except.ok ()) (fun _ _ _ _ => Except.error (("boom").data))
    (List.replicate 2000 'a') 150 30 (("boom").data) (Or.inr ⟨rfl, rfl⟩)).1

/-- C3: the pre-truncation step passes text of at most 1000 characters
through unmodified, truncates longer text to exactly its first 1000
characters plus `...`, and `generate_summary` hands exactly this
pre-truncated text to the summarization capability. -/
theorem C3_pre_truncation (text : List Char) :
    (text.length ≤ 1000 → truncate1000 text = text) ∧
    (text.length > 1000 → truncate1000 text = text.take 1000 ++ ("...").data) ∧
    (∀ (summ : List Char → Nat → Nat → Bool → Except (List Char) (List Char))
        (maxL minL : Nat),
      generate_summary (Except.ok ()) summ text maxL minL
        = match summ (truncate1000 text) maxL minL false with
          | Except.ok s => s
          | Except.error e => fallback e (truncate1000 text)) := by
  refine ⟨fun h => ?_, fun h => ?_, fun summ maxL minL => rfl⟩
  · unfold truncate1000
    rw [if_neg (by omega)]
  · unfold truncate1000
    rw [if_pos h]

/-- Witness for C3 at a 1001-character and a 7-character input. -/
theorem C3_witness :
    truncate1000 (List.replicate 1001 'b')
      = (List.replicate 1001 'b').take 1000 ++ ("...").data ∧
    truncate1000 (("short").data) = ("short").data := by
  constructor
  · exact (C3_pre_truncation (List.replicate 1001 'b')).2.1
      (by rw [List.length_replicate]; omega)
  · exact (C3_pre_truncation (("short").data)).1 (by decide)

/-- C9: the default bounds are `max_length = 150` and `min_length = 30`, and
under them the summarizer's behaviour depends on the capability only through
its value at the (pre-truncated) text, the two bounds, and `do_sample =
False` — i.e. every invocation passes exactly these arguments. -/
theorem C9_default_bounds :
    default_max_length = 150 ∧ default_min_length = 30 ∧
    ∀ (init : Except (List Char) Unit)
      (summ summ2 : List Char → Nat → Nat → Bool → Except (List Char) (List Char))
      (text : List Char),
      (∀ u, summ u 150 30 false = summ2 u 150 30 false) →
      generate_summary init summ text default_max_length default_min_length
        = generate_summary init summ2 text default_max_length default_min_length := by
  refine ⟨rfl, rfl, fun init summ summ2 text hagree => ?_⟩
  cases init with
  | error e => rfl
  | ok u =>
    show (match summ (truncate1000 text) default_max_length default_min_length false with
      | Except.ok s => s
      | Except.error e => fallback e (truncate1000 text)) =
      (match summ2 (truncate1000 text) default_max_length default_min_length false with
      | Except.ok s => s
      | Except.error e => fallback e (truncate1000 text))
    rw [show default_max_length = 150 from rfl, show default_min_length = 30 from rfl,
      hagree (truncate1000 text)]

/-- Witness for C9: two capabilities agreeing on non-sampled calls with the
default bounds produce the same summary. -/
theorem C9_witness :
    default_max_length = 150 ∧
    generate_summary (Except.ok ())
        (fun _ _ _ ds => if ds then Except.ok (("X").data) else Except.error (("E").data))
        (("hello").data) default_max_length default_min_length
      = generate_summary (Except.ok ()) (fun _ _ _ _ => Except.error (("E").data))
        (("hello").data) default_max_length default_min_length :=
  ⟨C9_default_bounds.1,
    C9_default_bounds.2.2 (Except.ok ())
      (fun _ _ _ ds => if ds then Except.ok (("X").data) else Except.error (("E").data))
      (fun _ _ _ _ => Except.error (("E").data)) (("hello").data) (fun _ => rfl)⟩

/-- One caption segment as returned by the transcript-retrieval capability
(`item["text"]` is the only field `get_transcript` reads). -/
structure Segment where
  text : List Char
deriving DecidableEq

/-- `get_transcript` from `app.py`: on success joins the segment texts with
single spaces (`" ".join(...)`) and pairs the result with the number of
segments; any raised error collapses to `(None, 0)`. -/
def get_transcript (fetched : Except (List Char) (List Segment)) :
    Option (List Char) × Nat :=
  match fetched with
  | Except.ok segs =>
    (some (List.intercalate [' '] (segs.map Segment.text)), segs.length)
  | Except.error _ => (none, 0)

/-- Modelled from the spec's wording of the concatenation policy: segments
joined with a single space separator, preserving source order. -/
def joinedWithSingleSpaces : List (List Char) → List Char
  | [] => []
  | [s] => s
  | s :: s2 :: rest => s ++ ' ' :: joinedWithSingleSpaces (s2 :: rest)

theorem intercalate_space_eq (xss : List (List Char)) :
    List.intercalate [' '] xss = joinedWithSingleSpaces xss := by
  induction xss with
  | nil => rfl
  | cons s rest ih =>
    cases rest with
    | nil => simp [List.intercalate, List.intersperse, joinedWithSingleSpaces]
    | cons s2 rest2 =>
      show List.intercalate [' '] (s :: s2 :: rest2)
        = s ++ ' ' :: joinedWithSingleSpaces (s2 :: rest2)
      rw [← ih]
      simp [List.intercalate, List.intersperse]

/-- C5: for every sequence of segments accepted from the retrieval
capability, the Acquirer returns the segment texts joined in source order
with single spaces, with `segmentCount` equal to the number of segments. -/
theorem C5_acquirer_join (segs : List Segment) :
    get_transcript (Except.ok segs)
      = (some (joinedWithSingleSpaces (segs.map Segment.text)), segs.length) := by
  simp [get_transcript, intercalate_space_eq]

/-- Witness for C5 on two concrete segments. -/
theorem C5_witness :
    get_transcript (Except.ok [Segment.mk (("hello").data), Segment.mk (("world").data)])
      = (some (("hello world").data), 2) := by
  rw [C5_acquirer_join]
  decide

/-- C6: every failure of the retrieval capability, whatever its message,
yields the same `(None, 0)` "unavailable" signal;  `get_transcript` is a
total function of the fetch outcome, so no exception propagates. -/
theorem C6_acquirer_unavailable (e : List Char) :
    get_transcript (Except.error e) = (none, 0) := rfl

/-- Witness for C6 at a concrete failure. -/
theorem C6_witness :
    get_transcript (Except.error (("no captions").data)) = (none, 0) :=
  C6_acquirer_unavailable (("no captions").data)

/-- User-visible events rendered by `main`, in source order. -/
inductive Ev where
  | warn (msg : List Char)
  | showError (msg : List Char)
  | titleLookup (vid : List Char)
  | showInfo (title vid : List Char)
  | transcriptFetch (vid : List Char)
  | showMetrics (segCount charCount : Nat)
  | summarizeRun (txt : List Char)
  | successBanner (msg : List Char)
  | showSummary (s : List Char)
  | showTranscript (txt : List Char)
  | offerDownloads (vid : List Char)
deriving DecidableEq

/-- The external capabilities injected into one run of `main`: best-effort
title lookup (which catches its own failures), transcript retrieval,
summarization-pipeline construction, and summarization invocation. -/
structure Caps where
  titleOf : List Char → List Char
  fetch : List Char → Except (List Char) (List Segment)
  sinit : Except (List Char) Unit
  summ : List Char → Nat → Nat → Bool → Except (List Char) (List Char)

/-- Warning shown by `main` for an empty URL. -/
def warnMsgEmptyUrl : List Char := ("⚠️ Please enter a YouTube URL").data

/-- Error shown by `main` when `extract_video_id` finds nothing. -/
def errMsgInvalidUrl : List Char :=
  ("❌ Invalid YouTube URL. Please check the link and try again.").data

/-- Error shown by `main` when the transcript is falsy (None or empty). -/
def errMsgNoTranscript : List Char :=
  ("❌ Could not retrieve transcript. This video might not have captions available.").data

/-- Banner shown by `main` after `generate_summary` returns. -/
def successMsgText : List Char := ("✅ Summary generated successfully!").data

/-- The event trace of one press of the summarize button in `main`:
empty URL warns; an unextractable id errors; otherwise the title is looked
up and the transcript fetched; a falsy transcript (None or the empty
string — Python's `if not transcript`) errors; otherwise metrics are shown,
`generate_summary(transcript)` is invoked with the default bounds, and the
success banner, summary, transcript and download buttons are rendered. -/
def run_main (caps : Caps) (url : List Char) : List Ev :=
  if url.isEmpty then [Ev.warn warnMsgEmptyUrl]
  else
    match extractId url with
    | none => [Ev.showError errMsgInvalidUrl]
    | some vid =>
      Ev.titleLookup vid ::
      Ev.showInfo (caps.titleOf vid) vid ::
      Ev.transcriptFetch vid ::
      match get_transcript (caps.fetch vid) with
      | (none, _) => [Ev.showError errMsgNoTranscript]
      | (some [], _) => [Ev.showError errMsgNoTranscript]
      | (some (c :: rest), count) =>
        [Ev.showMetrics count (c :: rest).length,
         Ev.summarizeRun (c :: rest),
         Ev.successBanner successMsgText,
         Ev.showSummary (generate_summary caps.sinit caps.summ (c :: rest)
           default_max_length default_min_length),
         Ev.showTranscript (c :: rest),
         Ev.offerDownloads vid]

/-- Events that perform a network call (title lookup, transcript fetch). -/
def isNetworkEv : Ev → Bool
  | Ev.titleLookup _ => true
  | Ev.transcriptFetch _ => true
  | _ => false

/-- Events that invoke summarization. -/
def isSummarizeEv : Ev → Bool
  | Ev.summarizeRun _ => true
  | _ => false

/-- C7: the pipeline short-circuits — when the Resolver finds no id, the
run performs no network call and no summarization; when the Acquirer fails,
the run performs no summarization. -/
theorem C7_short_circuit (caps : Caps) (url : List Char) :
    (extractId url = none →
      (run_main caps url).all (fun ev => !(isNetworkEv ev) && !(isSummarizeEv ev)) = true) ∧
    (∀ vid msg, extractId url = some vid → caps.fetch vid = Except.error msg →
      (run_main caps url).all (fun ev => !(isSummarizeEv ev)) = true) := by
  constructor
  · intro hnone
    by_cases hurl : url.isEmpty
    · simp [run_main, hurl, isNetworkEv, isSummarizeEv]
    · simp [run_main, hurl, hnone, isNetworkEv, isSummarizeEv]
  · intro vid msg hvid hfetch
    by_cases hurl : url.isEmpty
    · simp [run_main, hurl, isSummarizeEv]
    · have htr : get_transcript (caps.fetch vid) = (none, 0) := by rw [hfetch]; rfl
      simp [run_main, hurl, hvid, htr, isSummarizeEv]

/-- Capabilities whose transcript retrieval raises; for the C7 witness. -/
def capsFetchFail : Caps where
  titleOf := fun _ => ("T").data
  fetch := fun _ => Except.error (("no captions").data)
  sinit := Except.ok ()
  summ := fun _ _ _ _ => Except.ok (("S").data)

/-- Witness for C7 on scenario 4 (unrecognized URL) and scenario 5
(valid id, retrieval raises). -/
theorem C7_witness :
    (run_main capsFetchFail (("https://example.com/video").data)).all
      (fun ev => !(isNetworkEv ev) && !(isSummarizeEv ev)) = true ∧
    (run_main capsFetchFail (("https://youtu.be/dQw4w9WgXcQ").data)).all
      (fun ev => !(isSummarizeEv ev)) = true := by
  constructor
  · exact (C7_short_circuit capsFetchFail (("https://example.com/video").data)).1 (by decide)
  · exact (C7_short_circuit capsFetchFail (("https://youtu.be/dQw4w9WgXcQ").data)).2
      (("dQw4w9WgXcQ").data) (("no captions").data) (by decide) rfl

/-- C8: the three failure messages are pairwise distinct human-readable
strings; when the summarization capability fails, the user-visible summary
is exactly the minimal fallback string — so it carries a degraded-summary
notice (it begins with the literal failure marker) and exposes no internal
failure detail beyond the failure reason embedded in that string. -/
theorem C8_failure_rendering (caps : Caps) (url vid : List Char) (c : Char)
    (rest : List Char) (count : Nat) (e : List Char)
    (hurl : url.isEmpty = false)
    (hvid : extractId url = some vid)
    (htr : get_transcript (caps.fetch vid) = (some (c :: rest), count))
    (hfail : caps.sinit = Except.error e ∨
      (caps.sinit = Except.ok () ∧
        caps.summ (truncate1000 (c :: rest)) default_max_length default_min_length false
          = Except.error e)) :
    (warnMsgEmptyUrl ≠ errMsgInvalidUrl ∧ warnMsgEmptyUrl ≠ errMsgNoTranscript ∧
      errMsgInvalidUrl ≠ errMsgNoTranscript) ∧
    Ev.showSummary (failHead ++ e ++ failMid ++ (c :: rest).take 500 ++ ("...").data)
      ∈ run_main caps url ∧
    failHead <+: failHead ++ e ++ failMid ++ (c :: rest).take 500 ++ ("...").data := by
  refine ⟨⟨by decide, by decide, by decide⟩, ?_, ?_⟩
  · have hsum := generate_summary_error_eq caps.sinit caps.summ (c :: rest)
      default_max_length default_min_length e hfail
    simp [run_main, hurl, hvid, htr, hsum]
  · simp only [List.append_assoc]
    exact List.prefix_append _ _

/-- Capabilities whose summarization invocation raises; for the C8
witness. -/
def capsSummFail : Caps where
  titleOf := fun _ => ("T").data
  fetch := fun _ => Except.ok [Segment.mk (("hello world").data)]
  sinit := Except.ok ()
  summ := fun _ _ _ _ => Except.error (("E").data)

/-- Witness for C8: a run whose summarization fails shows exactly the
fallback summary for the fetched transcript. -/
theorem C8_witness :
    Ev.showSummary (failHead ++ ("E").data ++ failMid
        ++ ('h' :: ("ello world").data).take 500 ++ ("...").data)
      ∈ run_main capsSummFail (("https://youtu.be/dQw4w9WgXcQ").data) :=
  (C8_failure_rendering capsSummFail (("https://youtu.be/dQw4w9WgXcQ").data)
    (("dQw4w9WgXcQ").data) 'h' (("ello world").data) 1 (("E").data)
    (by decide) (by decide) (by decide) (Or.inr ⟨rfl, rfl⟩)).2.1

/-- C10: a zero-segment success yields `(Some "", 0)` from the Acquirer, yet
`main` treats it exactly like the unavailable signal: the traces of an
empty-but-successful fetch and of a failing fetch coincide, both halt with
the no-transcript error, and neither reaches summarization. -/
theorem C10_empty_equals_unavailable (caps caps2 : Caps) (url vid msg : List Char)
    (hurl : url.isEmpty = false)
    (hvid : extractId url = some vid)
    (hok : caps.fetch vid = Except.ok [])
    (herr : caps2.fetch vid = Except.error msg)
    (htitle : caps2.titleOf vid = caps.titleOf vid) :
    get_transcript (caps.fetch vid) = (some [], 0) ∧
    run_main caps url = run_main caps2 url ∧
    Ev.showError errMsgNoTranscript ∈ run_main caps url ∧
    (run_main caps url).all (fun ev => !(isSummarizeEv ev)) = true := by
  have h1 : get_transcript (caps.fetch vid) = (some [], 0) := by rw [hok]; rfl
  have h2 : get_transcript (caps2.fetch vid) = (none, 0) := by rw [herr]; rfl
  refine ⟨h1, ?_, ?_, ?_⟩
  · simp [run_main, hurl, hvid, h1, h2, htitle]
  · simp [run_main, hurl, hvid, h1]
  · simp [run_main, hurl, hvid, h1, isSummarizeEv]

/-- Capabilities whose fetch succeeds with zero segments; for the C10
witness. -/
def capsZeroSegs : Caps where
  titleOf := fun _ => ("T").data
  fetch := fun _ => Except.ok []
  sinit := Except.ok ()
  summ := fun _ _ _ _ => Except.ok (("S").data)

/-- Witness for C10: with a zero-segment success the run equals the run
with a failing fetch and halts with the no-transcript error. -/
theorem C10_witness :
    run_main capsZeroSegs (("https://youtu.be/dQw4w9WgXcQ").data)
      = run_main capsFetchFail (("https://youtu.be/dQw4w9WgXcQ").data) ∧
    Ev.showError errMsgNoTranscript
      ∈ run_main capsZeroSegs (("https://youtu.be/dQw4w9WgXcQ").data) := by
  have h := C10_empty_equals_unavailable capsZeroSegs capsFetchFail
    (("https://youtu.be/dQw4w9WgXcQ").data) (("dQw4w9WgXcQ").data)
    (("no captions").data) (by decide) (by decide) rfl rfl rfl
  exact ⟨h.2.1, h.2.2.1⟩
